import Mathlib

/-!
Shallow embedding of the multivendor catalog backend (src/main.py):
document model, serialization, product/vendor query builders, pagination,
seeding and the health endpoint, with theorems checking the specification.
-/

/-- A BSON-like value stored in a document field. `oid` is the internal
identifier type (the driver's ObjectId), carrying its string form. -/
inductive Value where
  | oid (s : String)
  | str (s : String)
  | num (x : ℚ)
  | bool (b : Bool)
  | null
  | strList (l : List String)
  deriving DecidableEq

/-- A document: an ordered mapping from field names to values, as in a
Python dict (insertion-ordered, keys unique in practice). -/
def Doc : Type := List (String × Value)

instance : DecidableEq Doc := inferInstanceAs (DecidableEq (List (String × Value)))

/-- Dictionary lookup: `doc.get(k)` and `doc[k]` (first matching key). -/
def dget (k : String) : Doc → Option Value
  | [] => none
  | (k0, v0) :: d => if k0 = k then some v0 else dget k d

/-- Dictionary update `doc[k] = v`: replace in place if the key is present,
otherwise append at the end (Python dict insertion order). -/
def dset (k : String) (v : Value) : Doc → Doc
  | [] => [(k, v)]
  | (k0, v0) :: d => if k0 = k then (k0, v) :: d else (k0, v0) :: dset k v d

/-- Dictionary deletion `del doc[k]`. -/
def derase (k : String) : Doc → Doc
  | [] => []
  | (k0, v0) :: d => if k0 = k then derase k d else (k0, v0) :: derase k d

/-- The string carried by an identifier value, when the optional value is
present and of the internal identifier type (mirrors
`isinstance(v, ObjectId)` on a `doc.get` result). -/
def oidOf : Option Value → Option String
  | some (Value.oid s) => some s
  | _ => none

/-- Lines 42-45 of serialize_doc: if `_id` is an ObjectId, set
`doc["id"] = str(_id)` and then `del doc["_id"]`; otherwise leave the
document alone. -/
def idStep (d : Doc) : Doc :=
  match oidOf (dget "_id" d) with
  | some s => derase "_id" (dset "id" (Value.str s) d)
  | none => d

/-- Lines 47-48 of serialize_doc: if `vendor_id` is present and an
ObjectId, replace it by its string form. -/
def vendorStep (d : Doc) : Doc :=
  match oidOf (dget "vendor_id" d) with
  | some s => dset "vendor_id" (Value.str s) d
  | none => d

/-- The body of serialize_doc on a (copy of a) present dict. -/
def serialize_dict (d : Doc) : Doc := vendorStep (idStep d)

/-- serialize_doc (src/main.py lines 38-49): `if not doc: return doc`
covers an absent (None) and an empty dict; otherwise the `_id` rename and
the `vendor_id` conversion are applied to a copy. -/
def serialize_doc : Option Doc → Option Doc
  | none => none
  | some d => if d = [] then some d else some (serialize_dict d)

-- Basic dictionary lemmas.

theorem dget_dset_self (k : String) (v : Value) (d : Doc) :
    dget k (dset k v d) = some v := by
  induction d with
  | nil => simp [dget, dset]
  | cons kv d ih =>
    obtain ⟨k0, v0⟩ := kv
    by_cases h : k0 = k
    · simp [dget, dset, h]
    · simp [dget, dset, h, ih]

theorem dget_dset_ne (k q : String) (v : Value) (d : Doc) (h : q ≠ k) :
    dget q (dset k v d) = dget q d := by
  induction d with
  | nil => simp [dget, dset, Ne.symm h]
  | cons kv d ih =>
    obtain ⟨k0, v0⟩ := kv
    by_cases h0 : k0 = k
    · subst h0
      simp [dget, dset, Ne.symm h]
    · simp [dget, dset, h0, ih]

theorem dget_derase_self (k : String) (d : Doc) :
    dget k (derase k d) = none := by
  induction d with
  | nil => simp [dget, derase]
  | cons kv d ih =>
    obtain ⟨k0, v0⟩ := kv
    by_cases h : k0 = k <;> simp [dget, derase, h, ih]

theorem dget_derase_ne (k q : String) (d : Doc) (h : q ≠ k) :
    dget q (derase k d) = dget q d := by
  induction d with
  | nil => simp [derase]
  | cons kv d ih =>
    obtain ⟨k0, v0⟩ := kv
    by_cases h0 : k0 = k
    · subst h0
      simp [dget, derase, Ne.symm h, ih]
    · simp [dget, derase, h0, ih]

theorem dset_ne_nil (k : String) (v : Value) (d : Doc) : dset k v d ≠ [] := by
  cases d with
  | nil => simp [dset]
  | cons kv d =>
    obtain ⟨k0, v0⟩ := kv
    by_cases h : k0 = k <;> simp [dset, h]

-- Step lemmas for serialization.

theorem dget_vendorStep_ne (k : String) (h : k ≠ "vendor_id") (d : Doc) :
    dget k (vendorStep d) = dget k d := by
  unfold vendorStep
  cases hv : oidOf (dget "vendor_id" d) with
  | none => rfl
  | some s => exact dget_dset_ne _ _ _ _ h

theorem dget_idStep_ne (k : String) (h1 : k ≠ "_id") (h2 : k ≠ "id") (d : Doc) :
    dget k (idStep d) = dget k d := by
  unfold idStep
  cases hv : oidOf (dget "_id" d) with
  | none => rfl
  | some s =>
    rw [dget_derase_ne _ _ _ h1, dget_dset_ne _ _ _ _ h2]

theorem oidOf_dget_underscore_idStep (d : Doc) :
    oidOf (dget "_id" (idStep d)) = none := by
  unfold idStep
  cases hv : oidOf (dget "_id" d) with
  | none => rw [hv]
  | some s => rw [dget_derase_self]; rfl

theorem oidOf_dget_vendor_vendorStep (d : Doc) :
    oidOf (dget "vendor_id" (vendorStep d)) = none := by
  unfold vendorStep
  cases hv : oidOf (dget "vendor_id" d) with
  | none => exact hv
  | some s => rw [dget_dset_self]; rfl

theorem idStep_of_oidOf_none (d : Doc) (h : oidOf (dget "_id" d) = none) :
    idStep d = d := by
  unfold idStep
  rw [h]

theorem vendorStep_of_oidOf_none (d : Doc) (h : oidOf (dget "vendor_id" d) = none) :
    vendorStep d = d := by
  unfold vendorStep
  rw [h]

theorem serialize_dict_idem (d : Doc) :
    serialize_dict (serialize_dict d) = serialize_dict d := by
  unfold serialize_dict
  rw [idStep_of_oidOf_none (vendorStep (idStep d))
        (by rw [dget_vendorStep_ne _ (by decide), oidOf_dget_underscore_idStep]),
      vendorStep_of_oidOf_none _ (oidOf_dget_vendor_vendorStep _)]

theorem vendorStep_ne_nil (d : Doc) (h : d ≠ []) : vendorStep d ≠ [] := by
  unfold vendorStep
  cases hv : oidOf (dget "vendor_id" d) with
  | none => exact h
  | some s => exact dset_ne_nil _ _ _

theorem idStep_ne_nil (d : Doc) (h : d ≠ []) : idStep d ≠ [] := by
  unfold idStep
  cases hv : oidOf (dget "_id" d) with
  | none => exact h
  | some s =>
    show derase "_id" (dset "id" (Value.str s) d) ≠ []
    intro hnil
    have hgot : dget "id" (derase "_id" (dset "id" (Value.str s) d)) = some (Value.str s) := by
      rw [dget_derase_ne _ _ _ (by decide), dget_dset_self]
    rw [hnil] at hgot
    simp [dget] at hgot

theorem serialize_dict_ne_nil (d : Doc) (h : d ≠ []) : serialize_dict d ≠ [] :=
  vendorStep_ne_nil _ (idStep_ne_nil _ h)

/-- C3: document serialization is idempotent: for every optional document,
serializing twice equals serializing once. -/
theorem c3_serialize_doc_idem (od : Option Doc) :
    serialize_doc (serialize_doc od) = serialize_doc od := by
  cases od with
  | none => rfl
  | some d =>
    by_cases h : d = []
    · subst h
      rfl
    · rw [serialize_doc, if_neg h, serialize_doc,
        if_neg (serialize_dict_ne_nil d h), serialize_dict_idem]

theorem serialize_doc_some (d : Doc) :
    serialize_doc (some d) = some (serialize_dict d) := by
  by_cases h : d = []
  · subst h
    rfl
  · rw [serialize_doc, if_neg h]

theorem dget_serialize_dict_of_oid (d : Doc) (s : String)
    (h : dget "_id" d = some (Value.oid s)) :
    dget "id" (serialize_dict d) = some (Value.str s) ∧
    dget "_id" (serialize_dict d) = none := by
  have hid : idStep d = derase "_id" (dset "id" (Value.str s) d) := by
    unfold idStep
    rw [h]
    rfl
  constructor
  · rw [serialize_dict, dget_vendorStep_ne _ (by decide), hid,
      dget_derase_ne _ _ _ (by decide), dget_dset_self]
  · rw [serialize_dict, dget_vendorStep_ne _ (by decide), hid, dget_derase_self]

/-- C4: serialization of a present document renames an ObjectId `_id` to
`id` in string form, converts an ObjectId `vendor_id` to its string form
(leaving it untouched when already a string or absent), passes every other
field through unchanged, and maps an absent document to an absent one. -/
theorem c4_serialize_doc_fields :
    serialize_doc none = none ∧
    (∀ (d : Doc), serialize_doc (some d) = some (serialize_dict d)) ∧
    (∀ (d : Doc) (s : String), dget "_id" d = some (Value.oid s) →
        dget "id" (serialize_dict d) = some (Value.str s) ∧
        dget "_id" (serialize_dict d) = none) ∧
    (∀ (d : Doc) (s : String), dget "vendor_id" d = some (Value.oid s) →
        dget "vendor_id" (serialize_dict d) = some (Value.str s)) ∧
    (∀ (d : Doc) (s : String), dget "vendor_id" d = some (Value.str s) →
        dget "vendor_id" (serialize_dict d) = some (Value.str s)) ∧
    (∀ (d : Doc), dget "vendor_id" d = none →
        dget "vendor_id" (serialize_dict d) = none) ∧
    (∀ (d : Doc) (k : String), k ≠ "_id" → k ≠ "id" → k ≠ "vendor_id" →
        dget k (serialize_dict d) = dget k d) := by
  refine ⟨rfl, serialize_doc_some, dget_serialize_dict_of_oid, ?_, ?_, ?_, ?_⟩
  · intro d s h
    have hv : dget "vendor_id" (idStep d) = some (Value.oid s) := by
      rw [dget_idStep_ne _ (by decide) (by decide), h]
    rw [serialize_dict, vendorStep, hv]
    show dget "vendor_id" (dset "vendor_id" (Value.str s) (idStep d)) = _
    rw [dget_dset_self]
  · intro d s h
    have hv : dget "vendor_id" (idStep d) = some (Value.str s) := by
      rw [dget_idStep_ne _ (by decide) (by decide), h]
    rw [serialize_dict, vendorStep, hv]
    exact hv
  · intro d h
    have hv : dget "vendor_id" (idStep d) = none := by
      rw [dget_idStep_ne _ (by decide) (by decide), h]
    rw [serialize_dict, vendorStep, hv]
    exact hv
  · intro d k h1 h2 h3
    rw [serialize_dict, dget_vendorStep_ne _ h3, dget_idStep_ne _ h1 h2]

/-- A concrete document exercising every clause of the C4 theorem. -/
def c4doc : Doc :=
  [("_id", Value.oid "68a1"), ("vendor_id", Value.oid "77b2"),
   ("title", Value.str "Silk Scarf"), ("price", Value.num 34)]

theorem c4_witness :
    dget "id" (serialize_dict c4doc) = some (Value.str "68a1") ∧
    dget "_id" (serialize_dict c4doc) = none ∧
    dget "vendor_id" (serialize_dict c4doc) = some (Value.str "77b2") ∧
    dget "price" (serialize_dict c4doc) = dget "price" c4doc :=
  ⟨(c4_serialize_doc_fields.2.2.1 c4doc "68a1" (by decide)).1,
   (c4_serialize_doc_fields.2.2.1 c4doc "68a1" (by decide)).2,
   c4_serialize_doc_fields.2.2.2.1 c4doc "77b2" (by decide),
   c4_serialize_doc_fields.2.2.2.2.2.2 c4doc "price" (by decide) (by decide) (by decide)⟩

-- Product query builder (src/main.py lines 172-188).

/-- Python truthiness of an optional string (e.g. `if category:`): false
for None and for the empty string, true otherwise. -/
def strTruthy : Option String → Bool
  | none => false
  | some s => decide (s ≠ "")

/-- The price sub-filter `{"$gte": min_price, "$lte": max_price}` with
each bound present only when supplied. -/
structure PriceFilter where
  gte : Option ℚ
  lte : Option ℚ
  deriving DecidableEq

/-- The product filter dict `filter_q`: at most the keys `category`,
`in_stock`, `$or` (two `$regex ... $options i` branches sharing the
pattern `q`, on `title` and `description`), and `price`. -/
structure ProductFilter where
  category : Option String
  in_stock : Option Bool
  q : Option String
  price : Option PriceFilter
  deriving DecidableEq

/-- The empty filter `{}`. -/
def ProductFilter.empty : ProductFilter :=
  { category := none, in_stock := none, q := none, price := none }

/-- Lines 172-188 of list_products: `if category:` and `if q:` test Python
truthiness (absent or empty string adds no key), `if in_stock is not None:`
keys on presence, and the price sub-dict is added when either bound is
supplied. -/
def build_product_filter (category q : Option String) (min_price max_price : Option ℚ)
    (in_stock : Option Bool) : ProductFilter :=
  { category := if strTruthy category then category else none
    in_stock := in_stock
    q := if strTruthy q then q else none
    price := if min_price.isSome || max_price.isSome then
        some { gte := min_price, lte := max_price } else none }

/-- Characters compared case-insensitively, as code points lowered. -/
def lowerChars (s : String) : List Char := s.data.map Char.toLower

def isPrefixB : List Char → List Char → Bool
  | [], _ => true
  | _ :: _, [] => false
  | a :: p, b :: s => a == b && isPrefixB p s

def isInfixB (p : List Char) : List Char → Bool
  | [] => isPrefixB p []
  | b :: s => isPrefixB p (b :: s) || isInfixB p s

/-- Case-insensitive substring test of a pattern against a string. -/
def ciSubstr (pat s : String) : Bool := isInfixB (lowerChars pat) (lowerChars s)

/-- Modelled from the spec: evaluation of the built filter happens in the
external document database, not in src/. Per the spec, a scalar filter
value is an equality test on the field, `$regex` with `$options: "i"` is a
case-insensitive substring test against a string field value (a missing or
non-string field does not match), and `$gte`/`$lte` bound a numeric field
value. This is the `$regex` branch on one field value. -/
def regexI (pat : String) : Option Value → Bool
  | some (Value.str s) => ciSubstr pat s
  | _ => false

def matchCategory (c : Option String) (d : Doc) : Bool :=
  match c with
  | none => true
  | some c0 => decide (dget "category" d = some (Value.str c0))

def matchStock (b : Option Bool) (d : Doc) : Bool :=
  match b with
  | none => true
  | some b0 => decide (dget "in_stock" d = some (Value.bool b0))

def matchQ (q : Option String) (d : Doc) : Bool :=
  match q with
  | none => true
  | some pat => regexI pat (dget "title" d) || regexI pat (dget "description" d)

def matchPrice (pf : Option PriceFilter) (d : Doc) : Bool :=
  match pf with
  | none => true
  | some pf0 =>
    match dget "price" d with
    | some (Value.num x) =>
        (match pf0.gte with
         | none => true
         | some m => decide (m ≤ x)) &&
        (match pf0.lte with
         | none => true
         | some M => decide (x ≤ M))
    | _ => false

/-- Modelled from the spec: a document matches the filter dict when it
matches every key of the dict (implicit AND), with `$or` satisfied by
either regex branch. -/
def docMatches (f : ProductFilter) (d : Doc) : Bool :=
  matchCategory f.category d && matchStock f.in_stock d &&
    matchQ f.q d && matchPrice f.price d

/-- The spec's wording of the free-text criterion: a case-insensitive
substring match of the pattern in the title or in the description. -/
def titleOrDescMatch (pat : String) (d : Doc) : Prop :=
  (∃ t, dget "title" d = some (Value.str t) ∧ ciSubstr pat t = true) ∨
  (∃ t, dget "description" d = some (Value.str t) ∧ ciSubstr pat t = true)

/-- The claim's independent criteria, one conjunct per supplied
parameter, written from the spec's words for comparison with the built
filter's semantics. -/
def specCriteria (category q : Option String) (mn mx : Option ℚ)
    (stk : Option Bool) (d : Doc) : Prop :=
  (∀ c, category = some c → dget "category" d = some (Value.str c)) ∧
  (∀ pat, q = some pat → titleOrDescMatch pat d) ∧
  (∀ m, mn = some m → ∃ x, dget "price" d = some (Value.num x) ∧ m ≤ x) ∧
  (∀ M, mx = some M → ∃ x, dget "price" d = some (Value.num x) ∧ x ≤ M) ∧
  (∀ b, stk = some b → dget "in_stock" d = some (Value.bool b))

theorem matchCategory_built (category : Option String) (d : Doc)
    (hc : category ≠ some "") :
    (matchCategory (if strTruthy category then category else none) d = true ↔
      ∀ c, category = some c → dget "category" d = some (Value.str c)) := by
  cases category with
  | none => simp [strTruthy, matchCategory]
  | some c =>
    have hc0 : c ≠ "" := fun h => hc (by rw [h])
    simp [strTruthy, hc0, matchCategory]

theorem regexI_true_iff (pat : String) (ov : Option Value) :
    (regexI pat ov = true ↔ ∃ t, ov = some (Value.str t) ∧ ciSubstr pat t = true) := by
  cases ov with
  | none => simp [regexI]
  | some v => cases v <;> simp [regexI]

theorem matchQ_built (q : Option String) (d : Doc) (hq : q ≠ some "") :
    (matchQ (if strTruthy q then q else none) d = true ↔
      ∀ pat, q = some pat → titleOrDescMatch pat d) := by
  cases q with
  | none => simp [strTruthy, matchQ]
  | some pat =>
    have hq0 : pat ≠ "" := fun h => hq (by rw [h])
    simp [strTruthy, hq0, matchQ, Bool.or_eq_true, regexI_true_iff, titleOrDescMatch]

theorem matchStock_built (stk : Option Bool) (d : Doc) :
    (matchStock stk d = true ↔ ∀ b, stk = some b → dget "in_stock" d = some (Value.bool b)) := by
  cases stk with
  | none => simp [matchStock]
  | some b => simp [matchStock]

theorem matchPrice_built (mn mx : Option ℚ) (d : Doc) :
    (matchPrice (if mn.isSome || mx.isSome then some { gte := mn, lte := mx } else none) d = true ↔
      ((∀ m, mn = some m → ∃ x, dget "price" d = some (Value.num x) ∧ m ≤ x) ∧
       (∀ M, mx = some M → ∃ x, dget "price" d = some (Value.num x) ∧ x ≤ M))) := by
  cases mn with
  | none =>
    cases mx with
    | none => simp [matchPrice]
    | some M =>
      cases hp : dget "price" d with
      | none => simp [matchPrice, hp]
      | some v => cases v <;> simp [matchPrice, hp]
  | some m =>
    cases mx with
    | none =>
      cases hp : dget "price" d with
      | none => simp [matchPrice, hp]
      | some v => cases v <;> simp [matchPrice, hp]
    | some M =>
      cases hp : dget "price" d with
      | none => simp [matchPrice, hp]
      | some v => cases v <;> simp [matchPrice, hp]

/-- C1: a product document matches the built filter iff it independently
satisfies every supplied criterion (category equality, case-insensitive
substring of q in title or description, price bounds, stock flag); with
all parameters absent the built filter is empty and matches every
document. A supplied parameter here is a non-empty string: the falsy
empty-string edge is the subject of C10. -/
theorem c1_product_filter_correct :
    (∀ (category q : Option String) (mn mx : Option ℚ) (stk : Option Bool) (d : Doc),
        category ≠ some "" → q ≠ some "" →
        (docMatches (build_product_filter category q mn mx stk) d = true ↔
          specCriteria category q mn mx stk d)) ∧
    build_product_filter none none none none none = ProductFilter.empty ∧
    (∀ d : Doc, docMatches ProductFilter.empty d = true) := by
  refine ⟨?_, rfl, fun d => rfl⟩
  intro category q mn mx stk d hc hq
  simp only [docMatches, build_product_filter, Bool.and_eq_true]
  rw [matchCategory_built category d hc, matchQ_built q d hq,
    matchStock_built stk d, matchPrice_built mn mx d]
  unfold specCriteria
  tauto

/-- A concrete seeded-style product document for the C1 witness. -/
def c1doc : Doc :=
  [("title", Value.str "Wireless Noise-Canceling Headphones"),
   ("description", Value.str "Immersive sound."),
   ("price", Value.num (19999 / 100)),
   ("category", Value.str "Electronics"),
   ("in_stock", Value.bool true)]

theorem c1_witness :
    docMatches (build_product_filter (some "Electronics") (some "noise")
        (some 50) none (some true)) c1doc = true ↔
      specCriteria (some "Electronics") (some "noise") (some 50) none (some true) c1doc :=
  c1_product_filter_correct.1 (some "Electronics") (some "noise") (some 50) none
    (some true) c1doc (by decide) (by decide)

/-- C10: supplying an empty-string category or q builds exactly the same
filter as omitting the parameter (Python truthiness treats the empty
string as absent), so neither adds a constraint. -/
theorem c10_empty_string_params :
    (∀ (q : Option String) (mn mx : Option ℚ) (stk : Option Bool),
        build_product_filter (some "") q mn mx stk =
          build_product_filter none q mn mx stk) ∧
    (∀ (category : Option String) (mn mx : Option ℚ) (stk : Option Bool),
        build_product_filter category (some "") mn mx stk =
          build_product_filter category none mn mx stk) := by
  constructor <;> intro a mn mx stk <;> simp [build_product_filter, strTruthy]

-- Pagination (src/main.py lines 191 and 196, repeated at 226 and 231).

/-- The skip offset: `skip = (page - 1) * limit`. -/
def skipOf (page limit : Nat) : Nat := (page - 1) * limit

/-- The page count: `pages = (total + limit - 1) // limit if limit else 1`
(Python truthiness of the integer limit). -/
def pagesOf (total limit : Nat) : Nat :=
  if limit ≠ 0 then (total + limit - 1) / limit else 1

theorem pagesOf_eq_ceil (total limit : Nat) (h : 1 ≤ limit) :
    pagesOf total limit = Nat.ceil ((total : ℚ) / (limit : ℚ)) := by
  have hl0 : limit ≠ 0 := Nat.one_le_iff_ne_zero.mp h
  have hp : 0 < limit := Nat.pos_of_ne_zero hl0
  have hlq : (0 : ℚ) < (limit : ℚ) := by exact_mod_cast hp
  rw [pagesOf, if_pos hl0]
  apply le_antisymm
  · have h1 : (total : ℚ) / limit ≤ Nat.ceil ((total : ℚ) / (limit : ℚ)) :=
      Nat.le_ceil _
    rw [div_le_iff₀ hlq] at h1
    have h3 : total ≤ Nat.ceil ((total : ℚ) / (limit : ℚ)) * limit := by
      exact_mod_cast h1
    rw [Nat.mul_comm] at h3
    rw [Nat.div_le_iff_le_mul_add_pred hp]
    generalize limit * Nat.ceil ((total : ℚ) / (limit : ℚ)) = LB at h3 ⊢
    omega
  · rw [Nat.ceil_le, div_le_iff₀ hlq]
    have h4 : total ≤ (total + limit - 1) / limit * limit := by
      have h5 := Nat.div_add_mod (total + limit - 1) limit
      have h6 : (total + limit - 1) % limit < limit := Nat.mod_lt _ hp
      rw [Nat.mul_comm]
      generalize limit * ((total + limit - 1) / limit) = LA at h5 ⊢
      omega
    exact_mod_cast h4

/-- C2: for every page ≥ 1, limit in [1,100] and total, the shared
pagination arithmetic gives skip = (page - 1) * limit and
pages = ceil(total / limit); with the degenerate limit = 0 it gives 1. -/
theorem c2_pagination (page limit total : Nat)
    (hpage : 1 ≤ page) (hl1 : 1 ≤ limit) (hl2 : limit ≤ 100) :
    skipOf page limit = (page - 1) * limit ∧
    pagesOf total limit = Nat.ceil ((total : ℚ) / (limit : ℚ)) ∧
    pagesOf total 0 = 1 :=
  ⟨rfl, pagesOf_eq_ceil total limit hl1, by simp [pagesOf]⟩

theorem c2_witness :
    skipOf 3 12 = (3 - 1) * 12 ∧
    pagesOf 25 12 = Nat.ceil ((25 : ℚ) / (12 : ℚ)) ∧
    pagesOf 25 0 = 1 :=
  c2_pagination 3 12 25 (by decide) (by decide) (by decide)

-- Document store and endpoints.

/-- The two collections of the document store, with the counter from
which the driver assigns fresh ObjectId strings on insert. -/
structure Store where
  vendor : List Doc
  product : List Doc
  nextId : Nat

/-- insert_many: every inserted document receives a fresh ObjectId `_id`
from the driver and is appended to the collection in order; returns the
new collection and the advanced counter. -/
def insert_many (coll : List Doc) (docs : List Doc) (firstId : Nat) :
    List Doc × Nat :=
  (coll ++ docs.enum.map (fun p => dset "_id" (Value.oid (toString (firstId + p.1))) p.2),
   firstId + docs.length)

/-- The response envelope of the paginated list endpoints. -/
structure Envelope where
  items : List Doc
  page : Nat
  pages : Nat
  total : Nat
  deriving DecidableEq

/-- list_products (src/main.py lines 159-198): unavailable-store guard,
filter build, count, skip/limit fetch, per-document serialization (each
cursor document is a present dict, so serialize_doc is serialize_dict on
it), envelope. -/
def list_products (db : Option Store) (page limit : Nat)
    (category q : Option String) (min_price max_price : Option ℚ)
    (in_stock : Option Bool) : Envelope :=
  match db with
  | none => { items := [], page := page, pages := 0, total := 0 }
  | some st =>
    let f := build_product_filter category q min_price max_price in_stock
    let total := (st.product.filter (fun d => docMatches f d)).length
    let items := (((st.product.filter (fun d => docMatches f d)).drop
        (skipOf page limit)).take limit).map (fun d => serialize_dict d)
    { items := items, page := page, pages := pagesOf total limit, total := total }

/-- The vendor filter build (lines 221-223): the `verified` parameter is
a non-optional bool with Query default True, so `if verified is not None`
always holds and the filter dict always carries the flag. -/
def build_vendor_filter (verified : Bool) : Option Bool := some verified

/-- The `Query(True)` default used when the caller does not supply the
`verified` parameter. -/
def verified_default : Bool := true

/-- Modelled from the spec: the database evaluates `{"verified": b}` as
an exact equality test on the field. -/
def vendorMatches (f : Option Bool) (d : Doc) : Bool :=
  match f with
  | none => true
  | some b => decide (dget "verified" d = some (Value.bool b))

/-- list_vendors (src/main.py lines 212-233). -/
def list_vendors (db : Option Store) (verified : Bool) (page limit : Nat) :
    Envelope :=
  match db with
  | none => { items := [], page := page, pages := 0, total := 0 }
  | some st =>
    let f := build_vendor_filter verified
    let total := (st.vendor.filter (fun d => vendorMatches f d)).length
    let items := (((st.vendor.filter (fun d => vendorMatches f d)).drop
        (skipOf page limit)).take limit).map (fun d => serialize_dict d)
    { items := items, page := page, pages := pagesOf total limit, total := total }

/-- The string held by a value when it is a string (`isinstance(c, str)`
guard of list_categories). -/
def strOf : Value → Option String
  | Value.str s => some s
  | _ => none

/-- Modelled from the spec: `distinct("category")` is evaluated by the
external database; it yields the distinct values of the field across the
collection, skipping documents without the field. -/
def distinct_category (products : List Doc) : List Value :=
  (products.filterMap (fun d => dget "category" d)).dedup

/-- list_categories (src/main.py lines 201-206): keep the string values
and sort ascending. -/
def list_categories (db : Option Store) : List String :=
  match db with
  | none => []
  | some st =>
    ((distinct_category st.product).filterMap strOf).mergeSort
      (fun a b => decide (a ≤ b))

/-- The fixed demo vendor documents (src/main.py lines 133-138). -/
def seed_vendors : List Doc :=
  [[("name", Value.str "Urban Outfitters"),
    ("bio", Value.str "Trendy apparel and accessories."),
    ("verified", Value.bool true), ("rating", Value.num 4.6),
    ("logo", Value.str "https://i.pravatar.cc/100?img=12"),
    ("categories", Value.strList ["Fashion", "Accessories"]),
    ("location", Value.str "NY, USA")],
   [("name", Value.str "GreenLeaf Organics"),
    ("bio", Value.str "Organic groceries and produce."),
    ("verified", Value.bool true), ("rating", Value.num 4.8),
    ("logo", Value.str "https://i.pravatar.cc/100?img=32"),
    ("categories", Value.strList ["Groceries"]),
    ("location", Value.str "CA, USA")],
   [("name", Value.str "TechNest"),
    ("bio", Value.str "Latest gadgets and electronics."),
    ("verified", Value.bool true), ("rating", Value.num 4.7),
    ("logo", Value.str "https://i.pravatar.cc/100?img=5"),
    ("categories", Value.strList ["Electronics"]),
    ("location", Value.str "Remote")],
   [("name", Value.str "Crafted Co."),
    ("bio", Value.str "Handmade goods from local artisans."),
    ("verified", Value.bool true), ("rating", Value.num 4.9),
    ("logo", Value.str "https://i.pravatar.cc/100?img=20"),
    ("categories", Value.strList ["Home", "Gifts"]),
    ("location", Value.str "TX, USA")]]

/-- The fixed demo product documents (src/main.py lines 144-150), each
cross-referencing a current vendor ObjectId by position, None when the
position is missing (`v_ids[i] if len(v_ids) > i else None`). -/
def seed_products (v_ids : List Value) : List Doc :=
  [[("title", Value.str "Vintage Denim Jacket"),
    ("description", Value.str "Classic fit, durable fabric."),
    ("price", Value.num 79.99), ("category", Value.str "Fashion"),
    ("in_stock", Value.bool true),
    ("images", Value.strList ["https://images.unsplash.com/photo-1516826957135-700dedea698c?w=800"]),
    ("vendor_id", v_ids.getD 0 Value.null)],
   [("title", Value.str "Organic Avocado Pack"),
    ("description", Value.str "Fresh and creamy."),
    ("price", Value.num 9.99), ("category", Value.str "Groceries"),
    ("in_stock", Value.bool true),
    ("images", Value.strList ["https://images.unsplash.com/photo-1550258987-190a2d41a8ba?w=800"]),
    ("vendor_id", v_ids.getD 1 Value.null)],
   [("title", Value.str "Wireless Noise-Canceling Headphones"),
    ("description", Value.str "Immersive sound."),
    ("price", Value.num 199.99), ("category", Value.str "Electronics"),
    ("in_stock", Value.bool true),
    ("images", Value.strList ["https://images.unsplash.com/photo-1518443871564-5acaed0c972e?w=800"]),
    ("vendor_id", v_ids.getD 2 Value.null)],
   [("title", Value.str "Handmade Ceramic Mug"),
    ("description", Value.str "Perfect for your morning coffee."),
    ("price", Value.num 24.5), ("category", Value.str "Home"),
    ("in_stock", Value.bool true),
    ("images", Value.strList ["https://images.unsplash.com/photo-1516826957135-700dedea698c?w=800"]),
    ("vendor_id", v_ids.getD 3 Value.null)],
   [("title", Value.str "Silk Scarf"),
    ("description", Value.str "Soft and elegant."),
    ("price", Value.num 34.0), ("category", Value.str "Accessories"),
    ("in_stock", Value.bool true),
    ("images", Value.strList ["https://images.unsplash.com/photo-1520975916090-3105956dac38?w=800"]),
    ("vendor_id", v_ids.getD 0 Value.null)]]

/-- The seed response payload: `{"status": "error", "message": ...}` or
`{"status": "ok", "vendors": ..., "products": ...}`. -/
inductive SeedResp where
  | error (message : String)
  | ok (vendors products : Nat)
  deriving DecidableEq

/-- The vendor half of seed_demo (lines 132-139): insert the demo vendors
when the vendor collection is empty. -/
def seed_vendor_phase (st : Store) : Store :=
  if st.vendor.length = 0 then
    { st with vendor := (insert_many st.vendor seed_vendors st.nextId).1,
              nextId := (insert_many st.vendor seed_vendors st.nextId).2 }
  else st

/-- The product half of seed_demo (lines 141-151): insert the demo
products when the product collection is empty, referencing the ObjectIds
of all vendors currently stored (every stored document carries `_id`).
The code reads products_count before the vendor phase, but the vendor
phase leaves the product collection unchanged, so the test is the same. -/
def seed_product_phase (st : Store) : Store :=
  if st.product.length = 0 then
    { st with
      product := (insert_many st.product
        (seed_products (st.vendor.map (fun v => (dget "_id" v).getD Value.null)))
        st.nextId).1,
      nextId := (insert_many st.product
        (seed_products (st.vendor.map (fun v => (dget "_id" v).getD Value.null)))
        st.nextId).2 }
  else st

/-- seed_demo on an available store (lines 129-153): both phases, then
the current counts. -/
def seed_step (st : Store) : SeedResp × Store :=
  let st2 := seed_product_phase (seed_vendor_phase st)
  (SeedResp.ok st2.vendor.length st2.product.length, st2)

/-- seed_demo (src/main.py lines 123-153): error-status payload when the
store is unavailable. -/
def seed_demo (db : Option Store) : SeedResp × Option Store :=
  match db with
  | none => (SeedResp.error "Database not configured", none)
  | some st => ((seed_step st).1, some (seed_step st).2)

/-- C5: with the store unavailable (the sentinel None), both paginated
list endpoints return the empty envelope echoing the caller's page, the
categories endpoint returns the empty list, and seed returns an
error-status payload; all four handlers are total functions of their
inputs, so no exception surfaces. -/
theorem c5_unavailable_store :
    (∀ (page limit : Nat) (category q : Option String) (mn mx : Option ℚ)
        (stk : Option Bool),
        list_products none page limit category q mn mx stk =
          { items := [], page := page, pages := 0, total := 0 }) ∧
    (∀ (verified : Bool) (page limit : Nat),
        list_vendors none verified page limit =
          { items := [], page := page, pages := 0, total := 0 }) ∧
    list_categories none = [] ∧
    seed_demo none = (SeedResp.error "Database not configured", none) :=
  ⟨fun _ _ _ _ _ _ _ => rfl, fun _ _ _ => rfl, rfl, rfl⟩

-- Seeding lemmas.

theorem insert_many_length (coll docs : List Doc) (n : Nat) :
    (insert_many coll docs n).1.length = coll.length + docs.length := by
  simp [insert_many]

theorem seed_vendors_length : seed_vendors.length = 4 := rfl

theorem seed_products_length (v_ids : List Value) :
    (seed_products v_ids).length = 5 := rfl

theorem seed_vendor_phase_product (st : Store) :
    (seed_vendor_phase st).product = st.product := by
  unfold seed_vendor_phase
  split <;> rfl

theorem seed_vendor_phase_vendor_length (st : Store) :
    (seed_vendor_phase st).vendor.length =
      if st.vendor.length = 0 then 4 else st.vendor.length := by
  unfold seed_vendor_phase
  by_cases h : st.vendor.length = 0 <;>
    simp [h, insert_many_length, seed_vendors_length]

theorem seed_product_phase_vendor (st : Store) :
    (seed_product_phase st).vendor = st.vendor := by
  unfold seed_product_phase
  split <;> rfl

theorem seed_product_phase_product_length (st : Store) :
    (seed_product_phase st).product.length =
      if st.product.length = 0 then 5 else st.product.length := by
  unfold seed_product_phase
  by_cases h : st.product.length = 0 <;>
    simp [h, insert_many_length, seed_products_length]

theorem seed_vendor_phase_of_nonempty (st : Store) (h : st.vendor.length ≠ 0) :
    seed_vendor_phase st = st := by
  unfold seed_vendor_phase
  rw [if_neg h]

theorem seed_product_phase_of_nonempty (st : Store) (h : st.product.length ≠ 0) :
    seed_product_phase st = st := by
  unfold seed_product_phase
  rw [if_neg h]

theorem seed_state_vendor_length (st : Store) :
    (seed_step st).2.vendor.length =
      if st.vendor.length = 0 then 4 else st.vendor.length := by
  show (seed_product_phase (seed_vendor_phase st)).vendor.length = _
  rw [seed_product_phase_vendor, seed_vendor_phase_vendor_length]

theorem seed_state_product_length (st : Store) :
    (seed_step st).2.product.length =
      if st.product.length = 0 then 5 else st.product.length := by
  show (seed_product_phase (seed_vendor_phase st)).product.length = _
  rw [seed_product_phase_product_length, seed_vendor_phase_product]

theorem seed_state_vendor_ne_zero (st : Store) :
    (seed_step st).2.vendor.length ≠ 0 := by
  rw [seed_state_vendor_length]
  by_cases h : st.vendor.length = 0 <;> simp [h]

theorem seed_state_product_ne_zero (st : Store) :
    (seed_step st).2.product.length ≠ 0 := by
  rw [seed_state_product_length]
  by_cases h : st.product.length = 0 <;> simp [h]

theorem seed_step_fixed (st : Store)
    (h1 : st.vendor.length ≠ 0) (h2 : st.product.length ≠ 0) :
    seed_step st = (SeedResp.ok st.vendor.length st.product.length, st) := by
  unfold seed_step
  rw [seed_vendor_phase_of_nonempty st h1, seed_product_phase_of_nonempty st h2]

/-- C6: seeding is idempotent at the collection level: from any store
state, the second of two sequential seed calls leaves the state unchanged
and returns the same counts as the first; each call returns the counts of
the state it leaves behind; the first call inserts the 4 demo vendors and
5 demo products only into the collections that were empty. -/
theorem c6_seed_idempotent (st : Store) :
    (seed_step (seed_step st).2).2 = (seed_step st).2 ∧
    (seed_step (seed_step st).2).1 = (seed_step st).1 ∧
    (seed_step st).1 =
      SeedResp.ok (seed_step st).2.vendor.length (seed_step st).2.product.length ∧
    (seed_step st).2.vendor.length =
      (if st.vendor.length = 0 then 4 else st.vendor.length) ∧
    (seed_step st).2.product.length =
      (if st.product.length = 0 then 5 else st.product.length) := by
  have hfix := seed_step_fixed (seed_step st).2
    (seed_state_vendor_ne_zero st) (seed_state_product_ne_zero st)
  refine ⟨by rw [hfix], ?_, rfl, seed_state_vendor_length st,
    seed_state_product_length st⟩
  rw [hfix]
  rfl

/-- C7: the vendor listing always filters on exact equality of
`verified` — the built filter dict always carries the flag, whose Query
default is true — so an unspecified request counts and returns only
vendors whose verified field equals true, never an unfiltered result. -/
theorem c7_vendor_filter_default :
    (∀ v : Bool, build_vendor_filter v = some v) ∧
    verified_default = true ∧
    (∀ (st : Store) (v : Bool) (page limit : Nat),
        (list_vendors (some st) v page limit).total =
          (st.vendor.filter
            (fun d => decide (dget "verified" d = some (Value.bool v)))).length) ∧
    (∀ (st : Store) (page limit : Nat) (d : Doc),
        d ∈ (list_vendors (some st) verified_default page limit).items →
          ∃ d0, d0 ∈ st.vendor ∧ dget "verified" d0 = some (Value.bool true) ∧
            d = serialize_dict d0) := by
  refine ⟨fun v => rfl, rfl, fun st v page limit => rfl, ?_⟩
  intro st page limit d hd
  simp only [list_vendors, List.mem_map] at hd
  obtain ⟨d0, hd0, rfl⟩ := hd
  have hmem : d0 ∈ st.vendor.filter
      (fun d => vendorMatches (build_vendor_filter verified_default) d) :=
    List.mem_of_mem_drop (List.mem_of_mem_take hd0)
  have hsplit := List.mem_filter.mp hmem
  refine ⟨d0, hsplit.1, ?_, rfl⟩
  have hver := hsplit.2
  simp only [build_vendor_filter, vendorMatches, verified_default,
    decide_eq_true_eq] at hver
  exact hver

/-- A one-vendor store for the C7 witness. -/
def c7store : Store :=
  { vendor := [[("name", Value.str "TechNest"), ("verified", Value.bool true)]],
    product := [], nextId := 0 }

theorem c7_witness :
    ∃ d0, d0 ∈ c7store.vendor ∧ dget "verified" d0 = some (Value.bool true) ∧
      [("name", Value.str "TechNest"), ("verified", Value.bool true)] =
        serialize_dict d0 :=
  c7_vendor_filter_default.2.2.2 c7store 1 20
    [("name", Value.str "TechNest"), ("verified", Value.bool true)] (by decide)

-- Category listing lemmas.

theorem strOf_eq_some (v : Value) (s : String) :
    strOf v = some s ↔ v = Value.str s := by
  cases v <;> simp [strOf]

theorem mem_list_categories (st : Store) (s : String) :
    s ∈ list_categories (some st) ↔
      ∃ d, d ∈ st.product ∧ dget "category" d = some (Value.str s) := by
  simp only [list_categories, List.mem_mergeSort, List.mem_filterMap,
    distinct_category, List.mem_dedup, Option.mem_def, strOf_eq_some]
  constructor
  · rintro ⟨v, ⟨d, hd, hv⟩, rfl⟩
    exact ⟨d, hd, hv⟩
  · rintro ⟨d, hd, hv⟩
    exact ⟨Value.str s, ⟨d, hd, hv⟩, rfl⟩

/-- C8: list_categories returns the sorted, duplicate-free list of the
distinct string category values across the product collection, containing
a string s exactly when some product document's category equals s. -/
theorem c8_list_categories (st : Store) :
    List.Sorted (fun a b : String => a ≤ b) (list_categories (some st)) ∧
    (list_categories (some st)).Nodup ∧
    (∀ s : String, s ∈ list_categories (some st) ↔
      ∃ d, d ∈ st.product ∧ dget "category" d = some (Value.str s)) := by
  refine ⟨?_, ?_, mem_list_categories st⟩
  · have hs := @List.sorted_mergeSort String
      (fun a b : String => decide (a ≤ b))
      (fun a b c hab hbc => by
        simp only [decide_eq_true_eq] at hab hbc ⊢
        exact le_trans hab hbc)
      (fun a b => by simpa using le_total a b)
      ((distinct_category st.product).filterMap strOf)
    exact hs.imp (fun h => by simpa using h)
  · have hperm := List.mergeSort_perm
      ((distinct_category st.product).filterMap strOf)
      (fun a b : String => decide (a ≤ b))
    refine hperm.nodup_iff.mpr ?_
    refine List.Nodup.filterMap ?_ ?_
    · intro a a' b hb hb'
      rw [Option.mem_def, strOf_eq_some] at hb hb'
      rw [hb, hb']
    · exact List.nodup_dedup _

-- Health endpoint (src/main.py lines 83-117).

/-- The store handle as seen by the health check: its optional `name`
attribute and the outcome of `list_collection_names()`, which either
yields the names or raises with a message. -/
structure DbHandle where
  name : Option String
  collection_names : Except String (List String)

/-- The health response body. -/
structure Health where
  backend : String
  database : String
  database_url : String
  database_name : String
  connection_status : String
  collections : List String
  deriving DecidableEq

/-- Python string slicing `s[:n]`, by code points. -/
def pySlice (n : Nat) (s : String) : String := String.mk (s.data.take n)

/-- test_database (src/main.py lines 83-117): builds the response dict,
catches any failure of `list_collection_names()` into the `database`
message (truncated to 50 characters), and finally overwrites
`database_url` and `database_name` with the environment-variable
presence flags, so the final values depend only on those flags. -/
def test_database (db : Option DbHandle) (url_set name_set : Bool) : Health :=
  let url_flag := if url_set then "✅ Set" else "❌ Not Set"
  let name_flag := if name_set then "✅ Set" else "❌ Not Set"
  match db with
  | none =>
    { backend := "✅ Running"
      database := "⚠️  Available but not initialized"
      database_url := url_flag
      database_name := name_flag
      connection_status := "Not Connected"
      collections := [] }
  | some h =>
    match h.collection_names with
    | Except.ok names =>
      { backend := "✅ Running"
        database := "✅ Connected & Working"
        database_url := url_flag
        database_name := name_flag
        connection_status := "Connected"
        collections := names.take 10 }
    | Except.error e =>
      { backend := "✅ Running"
        database := "⚠️  Connected but Error: " ++ pySlice 50 e
        database_url := url_flag
        database_name := name_flag
        connection_status := "Connected"
        collections := [] }

/-- C9: the health check is a total function (no exception surfaces for
any handle state), reports connection status and the presence of the
environment variables, includes at most 10 collection names, and folds a
collection-listing failure into the body as a message truncated to 50
characters. -/
theorem c9_test_database :
    (∀ (db : Option DbHandle) (u n : Bool),
        (test_database db u n).collections.length ≤ 10) ∧
    (∀ (db : Option DbHandle) (u n : Bool),
        (test_database db u n).database_url = (if u then "✅ Set" else "❌ Not Set") ∧
        (test_database db u n).database_name = (if n then "✅ Set" else "❌ Not Set") ∧
        (test_database db u n).connection_status =
          (if db.isSome then "Connected" else "Not Connected")) ∧
    (∀ (h : DbHandle) (u n : Bool) (e : String),
        h.collection_names = Except.error e →
          (test_database (some h) u n).database =
            "⚠️  Connected but Error: " ++ pySlice 50 e ∧
          (pySlice 50 e).length ≤ 50 ∧
          (test_database (some h) u n).collections = []) := by
  refine ⟨?_, ?_, ?_⟩
  · intro db u n
    cases db with
    | none => simp [test_database]
    | some h =>
      cases hc : h.collection_names with
      | ok names => simp [test_database, hc, List.length_take]
      | error e => simp [test_database, hc]
  · intro db u n
    cases db with
    | none => exact ⟨rfl, rfl, rfl⟩
    | some h =>
      cases hc : h.collection_names with
      | ok names => simp [test_database, hc]
      | error e => simp [test_database, hc]
  · intro h u n e hc
    refine ⟨?_, ?_, ?_⟩
    · simp [test_database, hc]
    · show (e.data.take 50).length ≤ 50
      exact List.length_take_le 50 e.data
    · simp [test_database, hc]

/-- A failing handle for the C9 witness. -/
def c9handle : DbHandle :=
  { name := some "ecommerce", collection_names := Except.error "boom" }

theorem c9_witness :
    (test_database (some c9handle) true false).database =
      "⚠️  Connected but Error: " ++ pySlice 50 "boom" ∧
    (pySlice 50 "boom").length ≤ 50 ∧
    (test_database (some c9handle) true false).collections = [] :=
  c9_test_database.2.2 c9handle true false "boom" rfl
